import Mathlib

/-!
A verification development for the connection-resolution, connection-string
parsing, connection-caching, query-execution and query-validation logic of
the mssql-mcp server (`src/utils/connection.ts` class `ConnectionManager`,
its helpers `executeQuery`, and `src/utils/query.ts`).

The TypeScript code is shallowly embedded: JavaScript objects and `Map`s
become association lists with object-assignment update semantics, JS string
truthiness becomes an explicit emptiness test on `Option String`, thrown
errors become `Except`, and the event-driven driver callbacks become
explicit event scripts folded into state.
-/

/-- Emptiness of a string, phrased on its character list so that concrete
instances evaluate by kernel reduction. -/
def jsIsEmpty (s : String) : Bool :=
  s.data.isEmpty

/-- JS truthiness of a `string | undefined` value: truthy exactly when the
value is present and non-empty.  Models `if (x)` checks on optional string
parameters and fields throughout the source. -/
def jsTruthy (o : Option String) : Bool :=
  !jsIsEmpty (o.getD "")

/-- Auxiliary accumulator recursion behind `jsSplitChar`. -/
def splitChAux (sep : Char) : List Char → List Char → List String
  | acc, [] => [String.mk acc.reverse]
  | acc, c :: rest =>
    if c = sep then String.mk acc.reverse :: splitChAux sep [] rest
    else splitChAux sep (c :: acc) rest

/-- Embedding of JS `s.split(sep)` for a one-character separator (the source
only splits on `';'` and `'='`): cut the string at every occurrence of the
separator, keeping empty pieces. -/
def jsSplitChar (s : String) (sep : Char) : List String :=
  splitChAux sep [] s.data

/-- Strip leading and trailing whitespace from a character list. -/
def trimChars (l : List Char) : List Char :=
  ((l.dropWhile Char.isWhitespace).reverse.dropWhile Char.isWhitespace).reverse

/-- Embedding of JS `s.trim()` (restricted to the ASCII whitespace that the
connection strings in question can contain). -/
def jsTrim (s : String) : String :=
  String.mk (trimChars s.data)

/-- Embedding of JS `s.toLowerCase()` (ASCII letters; every key and value
the source compares after lowercasing is ASCII). -/
def jsToLower (s : String) : String :=
  String.mk (s.data.map Char.toLower)

/-- Embedding of JS `s.startsWith(pre)`. -/
def jsStartsWith (s pre : String) : Bool :=
  pre.data.isPrefixOf s.data

/-- JS object property assignment `m[k] = v` (also `Map.prototype.set`):
replaces the value in place when the key is already present (keys are unique
in all maps built by the source), appends a fresh entry otherwise. -/
def objSet {α : Type} : List (String × α) → String → α → List (String × α)
  | [], k, v => [(k, v)]
  | p :: rest, k, v => if p.1 = k then (k, v) :: rest else p :: objSet rest k v

/-- JS `Map.prototype.delete` / `delete m[k]`: removes the entry stored
under `k`. -/
def objDelete {α : Type} (m : List (String × α)) (k : String) : List (String × α) :=
  m.filter (fun p => p.1 ≠ k)

/-- Embedding of `Array.prototype.join(', ')` as used on
`Object.keys(this.namedConnections)` when building the unknown-alias error
message. -/
def joinComma : List String → String
  | [] => ""
  | [a] => a
  | a :: rest => a ++ ", " ++ joinComma rest

/-- Substring occurrence on character lists; `segOccurs pat l` holds exactly
when `pat` occurs contiguously inside `l`.  Used to embed JS
`String.prototype.includes`. -/
def segOccurs (pat : List Char) : List Char → Bool
  | [] => pat.isEmpty
  | c :: rest => pat.isPrefixOf (c :: rest) || segOccurs pat rest

/-- Embedding of JS `s.includes(pat)`: `pat` occurs as a contiguous
substring of `s`. -/
def jsIncludes (s pat : String) : Bool :=
  segOccurs pat.data s.data

/-- The `WindowsCredentials` record of `src/types/index.ts`: all three
fields optional. -/
structure WindowsCredentials where
  username : Option String := none
  password : Option String := none
  domain : Option String := none
deriving DecidableEq

/-- The process-wide state of a `ConnectionManager` instance after
`initializeFromEnvironment` has run: the default connection string
(`MSSQL_CONNECTION_STRING`), the Windows credentials, and the named
connections map. -/
structure ConnMgrConfig where
  defaultConnectionString : Option String := none
  windowsCredentials : WindowsCredentials := {}
  namedConnections : List (String × String) := []
deriving DecidableEq

/-- The error message thrown by `getConnectionString` for an unknown alias:
`Named connection '<name>' not found. Available connections: <keys>`. -/
def unknownAliasMsg (name : String) (conns : List (String × String)) : String :=
  "Named connection \x27" ++ name ++ "\x27 not found. Available connections: " ++
    joinComma (conns.map Prod.fst)

/-- The error message thrown by `getConnectionString` when nothing at all is
available. -/
def noConnectionMsg : String :=
  "No connection string provided and no default connection string configured"

/-- Embedding of `ConnectionManager.getConnectionString`: resolves the
per-call selector to a raw connection string with precedence
explicit > named > default > error.  Every guard in the source is a JS
truthiness test, embedded by `jsTruthy`: `if (providedConnectionString)`,
`if (connectionName)`, `if (!namedConnection)` on the looked-up value (so a
named connection stored as the empty string throws the not-found error),
and `if (this.defaultConnectionString)` (so a configured-but-empty default
falls through to the final throw). -/
def getConnectionString (cfg : ConnMgrConfig)
    (providedConnectionString connectionName : Option String) :
    Except String String :=
  if jsTruthy providedConnectionString then
    .ok (providedConnectionString.getD "")
  else if jsTruthy connectionName then
    let namedConnection := cfg.namedConnections.lookup (connectionName.getD "")
    if !jsTruthy namedConnection then
      .error (unknownAliasMsg (connectionName.getD "") cfg.namedConnections)
    else
      .ok (namedConnection.getD "")
  else if jsTruthy cfg.defaultConnectionString then
    .ok (cfg.defaultConnectionString.getD "")
  else
    .error noConnectionMsg

/-- The nested `authentication.options` object of the tedious config built
by `parseConnectionString`.  Optional fields model JS properties that may be
absent (`delete` leaves them absent, not empty). -/
structure AuthOptions where
  userName : Option String := none
  password : Option String := none
  domain : Option String := none
deriving DecidableEq

/-- The `authentication` object of the tedious config: a type tag
(`"default"` or `"ntlm"`) plus its options. -/
structure Authentication where
  type : String
  options : AuthOptions
deriving DecidableEq

/-- The `options` object of the tedious config. -/
structure ConnOptions where
  database : Option String := none
  encrypt : Bool
  trustServerCertificate : Bool
  enableArithAbort : Bool
deriving DecidableEq

/-- The tedious driver config object assembled by `parseConnectionString`. -/
structure ConnectionConfig where
  server : String
  options : ConnOptions
  authentication : Authentication
deriving DecidableEq

/-- The initial config literal at the top of `parseConnectionString`. -/
def initialConfig : ConnectionConfig :=
  { server := "localhost"
    options := { database := none, encrypt := true, trustServerCertificate := true,
                 enableArithAbort := true }
    authentication := { type := "default", options := {} } }

/-- The credential-merging block run when an `integrated security=true|sspi`
pair is processed: inject whichever environment credentials are truthy, and
when neither a truthy username nor a truthy password exists, delete both
fields so the driver attempts current-user authentication. -/
def ntlmOptionsUpdate (envCredentials : WindowsCredentials) (opts : AuthOptions) :
    AuthOptions :=
  let o1 := if jsTruthy envCredentials.username then
    { opts with userName := envCredentials.username } else opts
  let o2 := if jsTruthy envCredentials.password then
    { o1 with password := envCredentials.password } else o1
  let o3 := if jsTruthy envCredentials.domain then
    { o2 with domain := envCredentials.domain } else o2
  if !jsTruthy envCredentials.username && !jsTruthy envCredentials.password then
    { o3 with userName := none, password := none }
  else o3

/-- The body of the `for` loop of `parseConnectionString` once the trimmed
key and value of a segment have been extracted: skip the segment when either
is falsy, otherwise dispatch on the lowercased key exactly as the source
`switch` does (unrecognized keys fall through unchanged). -/
def applyKeyValue (envCredentials : WindowsCredentials) (config : ConnectionConfig)
    (key value : String) : ConnectionConfig :=
  if jsIsEmpty key || jsIsEmpty value then config else
  let lowerKey := jsToLower key
  if lowerKey = "server" ∨ lowerKey = "data source" then
    { config with server := value }
  else if lowerKey = "database" ∨ lowerKey = "initial catalog" then
    { config with options.database := some value }
  else if lowerKey = "user id" ∨ lowerKey = "uid" then
    { config with authentication.options.userName := some value }
  else if lowerKey = "password" ∨ lowerKey = "pwd" then
    { config with authentication.options.password := some value }
  else if lowerKey = "integrated security" then
    if jsToLower value = "true" ∨ jsToLower value = "sspi" then
      { config with authentication :=
          { type := "ntlm",
            options := ntlmOptionsUpdate envCredentials config.authentication.options } }
    else config
  else if lowerKey = "encrypt" then
    { config with options.encrypt := jsToLower value = "true" }
  else if lowerKey = "trustservercertificate" then
    { config with options.trustServerCertificate := jsToLower value = "true" }
  else config

/-- One iteration of the segment loop of `parseConnectionString`:
`const [key, value] = part.split('=').map(s => s.trim())` keeps only the
first two trimmed pieces (an absent piece, like an absent JS array element,
is falsy and makes the segment be skipped). -/
def applyPart (envCredentials : WindowsCredentials) (config : ConnectionConfig)
    (part : String) : ConnectionConfig :=
  let pieces := (jsSplitChar part '=').map jsTrim
  applyKeyValue envCredentials config (pieces.headD "") ((pieces.get? 1).getD "")

/-- The semicolon segments of a raw connection string that survive the
`filter(part => part.trim())` truthiness filter. -/
def connStringParts (connectionString : String) : List String :=
  (jsSplitChar connectionString ';').filter (fun part => !jsIsEmpty (jsTrim part))

/-- Embedding of `ConnectionManager.parseConnectionString`: fold the segment
loop over the filtered semicolon segments, starting from `initialConfig`. -/
def parseConnectionString (connectionString : String)
    (envCredentials : WindowsCredentials) : ConnectionConfig :=
  (connStringParts connectionString).foldl (applyPart envCredentials) initialConfig

/-- A semicolon segment that selects integrated security: non-empty trimmed
key lowercasing to `integrated security` with a non-empty trimmed value
lowercasing to `true` or `sspi`. -/
def isIntegratedSecurityPair (part : String) : Bool :=
  let pieces := (jsSplitChar part '=').map jsTrim
  let key := pieces.headD ""
  let value := (pieces.get? 1).getD ""
  !jsIsEmpty key && !jsIsEmpty value && jsToLower key == "integrated security" &&
    (jsToLower value == "true" || jsToLower value == "sspi")


/-- The lowercased alias derived from a `CONNECTION_*` environment key:
`key.substring(11).toLowerCase()` (the prefix `CONNECTION_` is 11
characters; underscores are untouched by lowercasing). -/
def connectionAlias (key : String) : String :=
  jsToLower (String.mk (key.data.drop 11))

/-- Whether an environment key belongs to the individual named-connection
scan: `key.startsWith('CONNECTION_')`. -/
def isConnectionVar (key : String) : Bool :=
  jsStartsWith key "CONNECTION_"

/-- The `connectionVars` object built by the scan loop of
`loadNamedConnections`: every environment entry whose key starts with
`CONNECTION_` is stored under its stripped, lowercased alias (object
assignment semantics, in environment order). -/
def scanConnectionVars (env : List (String × String)) : List (String × String) :=
  env.foldl
    (fun acc kv => if isConnectionVar kv.1 then objSet acc (connectionAlias kv.1) kv.2 else acc)
    []

/-- Embedding of `ConnectionManager.loadNamedConnections`.  The environment
is an association list; `parseBlob` models `JSON.parse` of a structured
connections blob, returning `.error` when the blob throws.  The whole body
is wrapped in one `try/catch`, so a throw from either blob parse is caught
at function level and leaves `this.namedConnections` at its initial `{}` —
the remaining sources are NOT consulted after a parse failure. -/
def loadNamedConnections
    (parseBlob : String → Except String (List (String × String)))
    (env : List (String × String)) : List (String × String) :=
  let connectionVars := scanConnectionVars env
  if connectionVars.length > 0 then connectionVars
  else if jsTruthy (env.lookup "connections") then
    match parseBlob ((env.lookup "connections").getD "") with
    | .ok m => m
    | .error _ => []
  else if jsTruthy (env.lookup "MSSQL_CONNECTIONS") then
    match parseBlob ((env.lookup "MSSQL_CONNECTIONS").getD "") with
    | .ok m => m
    | .error _ => []
  else []

deriving instance DecidableEq for Except

/-- A cached tedious `Connection` as far as the cache logic observes it: an
identity and the `state.name` its session currently reports. -/
structure Session where
  id : Nat
  stateName : String
deriving DecidableEq

/-- The outcome the driver delivers to the `connect` callback of a fresh
connection attempt: a logged-in session, or a login error. -/
inductive ConnectOutcome where
  | success (s : Session)
  | failure (err : String)
deriving DecidableEq

/-- What one `getConnection` call produces: the settled promise, the cache
afterwards, and how many `connection.connect()` handshakes were started. -/
structure AcquireResult where
  result : Except String Session
  cache : List (String × Session)
  handshakes : Nat
deriving DecidableEq

/-- The fresh-connection branch of `getConnection`: one handshake; on
`connect` success the session is stored under the resolved string and the
promise resolves with it; on `connect` error the promise rejects and the
cache is left untouched. -/
def connectFresh (cache : List (String × Session)) (key : String) :
    ConnectOutcome → AcquireResult
  | .success s => ⟨.ok s, objSet cache key s, 1⟩
  | .failure e => ⟨.error e, cache, 1⟩

/-- Embedding of `ConnectionManager.getConnection`: resolve the selector,
serve a cached session immediately when it still reports `LoggedIn`,
otherwise open a fresh connection whose outcome the driver decides. -/
def getConnection (cfg : ConnMgrConfig) (cache : List (String × Session))
    (connectionString connectionName : Option String)
    (outcome : ConnectOutcome) : AcquireResult :=
  match getConnectionString cfg connectionString connectionName with
  | .error e => ⟨.error e, cache, 0⟩
  | .ok actualConnectionString =>
    match cache.lookup actualConnectionString with
    | some connection =>
      if connection.stateName = "LoggedIn" then ⟨.ok connection, cache, 0⟩
      else connectFresh cache actualConnectionString outcome
    | none => connectFresh cache actualConnectionString outcome

/-- The `connection.on('error', ...)` handler of `getConnection`: a live
session reporting an asynchronous error deletes its resolved-string key from
the cache. -/
def onSessionError (cache : List (String × Session)) (key : String) :
    List (String × Session) :=
  objDelete cache key

/-- One column of a driver row event: `column.metadata.colName` and
`column.value` (values kept abstract in `α`). -/
structure ColumnData (α : Type) where
  colName : String
  value : α
deriving DecidableEq

/-- The events the driver delivers for one executed `Request`: any number of
`row` events followed by the completion callback carrying `err` (`none` for
success). -/
inductive QueryEvent (α : Type) where
  | row (columns : List (ColumnData α))
  | completion (err : Option String)
deriving DecidableEq

/-- The `request.on('row', ...)` handler body: build a plain record from the
row's columns, keying each value by its reported column name (JS object
assignment, in column order). -/
def rowToRecord {α : Type} (columns : List (ColumnData α)) : List (String × α) :=
  columns.foldl (fun row column => objSet row column.colName column.value) []

/-- Embedding of `executeQuery`'s promise executor: fold the driver's event
script over the accumulated `rows` list.  `none` means the promise is still
pending (the driver never signalled completion); `some` is the settled
promise, which ignores any events after settlement. -/
def runQueryEvents {α : Type} (acc : List (List (String × α))) :
    List (QueryEvent α) → Option (Except String (List (List (String × α))))
  | [] => none
  | .row columns :: rest => runQueryEvents (acc ++ [rowToRecord columns]) rest
  | .completion none :: _ => some (.ok acc)
  | .completion (some e) :: _ => some (.error e)

/-- Embedding of `executeQuery connection sql` as a function of the event
script the driver delivers for the issued command. -/
def executeQuery {α : Type} (events : List (QueryEvent α)) :
    Option (Except String (List (List (String × α)))) :=
  runQueryEvents [] events

/-- The blocked-keyword list of `validateReadOnlyQuery`
(`src/utils/query.ts`). -/
def blockedKeywords : List String :=
  ["insert", "update", "delete", "drop", "create", "alter",
   "truncate", "exec", "execute", "sp_", "xp_"]

/-- Embedding of `validateReadOnlyQuery` (`src/utils/query.ts`): throw
unless the trimmed lowercased query starts with `select`, then throw on the
first blocked keyword occurring anywhere in the normalized text (plain
substring matching, string literals and comments included). -/
def validateReadOnlyQuery (query : String) : Except String Unit :=
  let normalizedQuery := jsToLower (jsTrim query)
  if !jsStartsWith normalizedQuery "select" then
    .error "Only SELECT queries are allowed for security reasons"
  else
    match blockedKeywords.find? (fun keyword => jsIncludes normalizedQuery keyword) with
    | some keyword => .error ("Query contains blocked keyword: " ++ keyword)
    | none => .ok ()

/-- The aliases produced by the `CONNECTION_*` environment scan, in
environment order. -/
def scanAliases (env : List (String × String)) : List String :=
  (env.filter (fun kv => isConnectionVar kv.1)).map (fun kv => connectionAlias kv.1)

/-- A concrete `JSON.parse` oracle for structured connection blobs: the blob
`"good"` parses to the one-alias map `db -> X`, anything else throws. -/
def demoParse : String → Except String (List (String × String))
  | "good" => .ok [("db", "X")]
  | _ => .error "unexpected token"

theorem segOccurs_of_isPrefixOf {pat l : List Char} (h : pat.isPrefixOf l = true) :
    segOccurs pat l = true := by
  cases l with
  | nil =>
    cases pat with
    | nil => rfl
    | cons c p => simp [List.isPrefixOf] at h
  | cons c rest => simp [segOccurs, h]

theorem segOccurs_append_right {pat l₂ : List Char} (l₁ : List Char)
    (h : segOccurs pat l₂ = true) : segOccurs pat (l₁ ++ l₂) = true := by
  induction l₁ with
  | nil => simpa using h
  | cons c cs ih => simp [segOccurs, ih]

theorem jsIncludes_append_right {t a : String} (s : String)
    (h : jsIncludes t a = true) : jsIncludes (s ++ t) a = true := by
  unfold jsIncludes at h ⊢
  rw [String.data_append]
  exact segOccurs_append_right s.data h

theorem jsIncludes_self_append (a t : String) : jsIncludes (a ++ t) a = true := by
  unfold jsIncludes
  rw [String.data_append]
  exact segOccurs_of_isPrefixOf (by simp)

theorem jsIncludes_refl (a : String) : jsIncludes a a = true := by
  unfold jsIncludes
  exact segOccurs_of_isPrefixOf (by simp)

theorem jsIncludes_joinComma_of_mem {l : List String} {a : String} (h : a ∈ l) :
    jsIncludes (joinComma l) a = true := by
  induction l with
  | nil => cases h
  | cons x xs ih =>
    rcases List.mem_cons.mp h with rfl | hmem
    · cases xs with
      | nil => exact jsIncludes_refl a
      | cons y ys =>
        show jsIncludes (a ++ ", " ++ joinComma (y :: ys)) a = true
        rw [String.append_assoc]
        exact jsIncludes_self_append a _
    · cases xs with
      | nil => cases hmem
      | cons y ys =>
        show jsIncludes (x ++ ", " ++ joinComma (y :: ys)) a = true
        exact jsIncludes_append_right _ (ih hmem)

theorem jsIncludes_unknownAliasMsg {conns : List (String × String)} {a : String}
    (name : String) (h : a ∈ conns.map Prod.fst) :
    jsIncludes (unknownAliasMsg name conns) a = true := by
  unfold unknownAliasMsg
  exact jsIncludes_append_right _ (jsIncludes_joinComma_of_mem h)

theorem jsTruthy_some_of_ne (s : String) (h : s ≠ "") : jsTruthy (some s) = true := by
  simp [jsTruthy, jsIsEmpty, List.isEmpty_iff]
  intro hd
  exact h (by cases s with | mk d => simpa using congrArg String.mk hd)

/-- Claim C1 counterexample: the claim fails on the code at reachable
inputs.  A known alias whose stored string is empty (reachable via the
environment variable `CONNECTION_FOO=`) does NOT return its stored string —
the `if (!namedConnection)` truthiness guard throws the not-found error; and
a configured-but-empty default (`MSSQL_CONNECTION_STRING=`) is NOT returned —
the `if (this.defaultConnectionString)` truthiness guard falls through to
the no-connection error. -/
theorem c1_truthiness_counterexample :
    getConnectionString { namedConnections := [("foo", "")] } none (some "foo") =
      .error "Named connection \x27foo\x27 not found. Available connections: foo" ∧
    getConnectionString { namedConnections := [("foo", "")] } none (some "foo") ≠
      .ok "" ∧
    getConnectionString { defaultConnectionString := some "" } none none =
      .error noConnectionMsg ∧
    getConnectionString { defaultConnectionString := some "" } none none ≠
      .ok "" := by
  exact ⟨by decide, by decide, by decide, by decide⟩

/-- Claim C1 (amended): `getConnectionString` resolution follows the
precedence explicit > named > default > error exactly, with every guard a
JS truthiness test.  A supplied (present and non-empty) explicit string is
returned; otherwise, for a supplied alias, a stored NON-EMPTY string is
returned, while a missing alias — or one whose stored string is empty —
throws an error whose message lists every currently known alias name;
otherwise a NON-EMPTY startup default is returned when configured;
otherwise (including a configured-but-empty default) an error is thrown. -/
theorem c1_resolution_precedence (cfg : ConnMgrConfig) (p n : Option String) :
    (jsTruthy p = true → getConnectionString cfg p n = .ok (p.getD "")) ∧
    (jsTruthy p = false → jsTruthy n = true →
      (∀ s, cfg.namedConnections.lookup (n.getD "") = some s → s ≠ "" →
        getConnectionString cfg p n = .ok s) ∧
      (jsTruthy (cfg.namedConnections.lookup (n.getD "")) = false →
        getConnectionString cfg p n =
          .error (unknownAliasMsg (n.getD "") cfg.namedConnections) ∧
        ∀ a ∈ cfg.namedConnections.map Prod.fst,
          jsIncludes (unknownAliasMsg (n.getD "") cfg.namedConnections) a = true)) ∧
    (jsTruthy p = false → jsTruthy n = false →
      (∀ d, cfg.defaultConnectionString = some d → d ≠ "" →
        getConnectionString cfg p n = .ok d) ∧
      (jsTruthy cfg.defaultConnectionString = false →
        getConnectionString cfg p n = .error noConnectionMsg)) := by
  refine ⟨fun hp => ?_, fun hp hn => ⟨fun s hs hne => ?_,
    fun hl => ⟨?_, fun a ha => jsIncludes_unknownAliasMsg _ ha⟩⟩,
    fun hp hn => ⟨fun d hd hne => ?_, fun hd => ?_⟩⟩
  · simp [getConnectionString, hp]
  · simp [getConnectionString, hp, hn, hs, jsTruthy_some_of_ne _ hne]
  · simp [getConnectionString, hp, hn, hl]
  · simp [getConnectionString, hp, hn, hd, jsTruthy_some_of_ne _ hne]
  · simp [getConnectionString, hp, hn, hd]

/-- Witness for C1 (amended) at a concrete configuration: all four
precedence levels, including the exact unknown-alias error message. -/
theorem c1_resolution_precedence_witness :
    (getConnectionString
        { defaultConnectionString := some "DEF",
          namedConnections := [("crm", "CS1"), ("hr", "CS2")] }
        (some "EXPL") (some "crm") = .ok "EXPL") ∧
    (getConnectionString
        { defaultConnectionString := some "DEF",
          namedConnections := [("crm", "CS1"), ("hr", "CS2")] }
        none (some "hr") = .ok "CS2") ∧
    (getConnectionString
        { defaultConnectionString := some "DEF",
          namedConnections := [("crm", "CS1"), ("hr", "CS2")] }
        none (some "zz") =
      .error "Named connection \x27zz\x27 not found. Available connections: crm, hr") ∧
    (getConnectionString
        { defaultConnectionString := some "DEF",
          namedConnections := [("crm", "CS1"), ("hr", "CS2")] }
        none none = .ok "DEF") ∧
    (getConnectionString { namedConnections := [] } none none =
      .error noConnectionMsg) := by
  refine ⟨(c1_resolution_precedence _ _ _).1 (by decide),
    ((c1_resolution_precedence _ _ _).2.1 (by decide) (by decide)).1 "CS2" (by decide)
      (by decide),
    ?_,
    ((c1_resolution_precedence _ _ _).2.2 (by decide) (by decide)).1 "DEF" (by decide)
      (by decide),
    ((c1_resolution_precedence _ _ _).2.2 (by decide) (by decide)).2 (by decide)⟩
  have h := (((c1_resolution_precedence
      { defaultConnectionString := some "DEF",
        namedConnections := [("crm", "CS1"), ("hr", "CS2")] }
      none (some "zz")).2.1 (by decide) (by decide)).2 (by decide)).1
  simpa [unknownAliasMsg, joinComma] using h

/-- Claim C6 counterexample: the explicit connection-string argument `""`
(present, a string value) is NOT returned verbatim — JS truthiness sends the
empty string down the fallback chain, so the configured default is returned
instead. -/
theorem c6_explicit_empty_counterexample :
    getConnectionString { defaultConnectionString := some "DEF" } (some "") none =
      .ok "DEF" ∧
    getConnectionString { defaultConnectionString := some "DEF" } (some "") none ≠
      .ok "" := by
  exact ⟨by decide, by decide⟩

/-- Claim C6 (amended): for every present NON-EMPTY explicit
connection-string value, `getConnectionString` returns that value verbatim,
regardless of named connections or default; a present empty string is
treated as absent. -/
theorem c6_explicit_wins (cfg : ConnMgrConfig) (s : String) (n : Option String)
    (hs : s ≠ "") : getConnectionString cfg (some s) n = .ok s := by
  have ht : jsTruthy (some s) = true := by
    simp [jsTruthy, jsIsEmpty, List.isEmpty_iff]
    intro h
    exact hs (by cases s with | mk d => simpa using congrArg String.mk h)
  simp [getConnectionString, ht]

/-- Witness for C6 (amended) at a concrete input. -/
theorem c6_explicit_wins_witness :
    getConnectionString
      { defaultConnectionString := some "DEF", namedConnections := [("crm", "CS1")] }
      (some "Server=X") (some "crm") = .ok "Server=X" :=
  c6_explicit_wins _ "Server=X" _ (by decide)

/-- Claim C9: `validateReadOnlyQuery` throws exactly when the trimmed,
lowercased query does not start with `select`, or contains one of the
blocked keyword substrings anywhere in the text (plain substring matching,
string literals and comments included); otherwise it returns without
error. -/
theorem c9_validate_read_only_iff (query : String) :
    (∃ e, validateReadOnlyQuery query = .error e) ↔
    (jsStartsWith (jsToLower (jsTrim query)) "select" = false ∨
      ∃ k ∈ blockedKeywords, jsIncludes (jsToLower (jsTrim query)) k = true) := by
  unfold validateReadOnlyQuery
  dsimp only
  cases hs : jsStartsWith (jsToLower (jsTrim query)) "select" with
  | false => simp [hs]
  | true =>
    simp only [Bool.not_true, Bool.false_eq_true, if_false]
    cases hf : blockedKeywords.find? (fun keyword => jsIncludes (jsToLower (jsTrim query)) keyword) with
    | none =>
      have hnone := List.find?_eq_none.mp hf
      constructor
      · rintro ⟨e, he⟩
        exact absurd he (by simp)
      · rintro (h | ⟨k, hk, hik⟩)
        · simp at h
        · exact absurd hik (hnone k hk)
    | some k =>
      have hmem := List.mem_of_find?_eq_some hf
      have hk := List.find?_some hf
      constructor
      · intro _
        exact Or.inr ⟨k, hmem, hk⟩
      · intro _
        exact ⟨_, rfl⟩

/-- Claim C10: each semicolon segment is split on every `=` and only the
first two trimmed pieces are kept as key and value — a value with an
embedded `=` (such as `Pwd=a=b`) is silently truncated at its first
embedded `=` — and a segment whose trimmed key or trimmed value is empty is
skipped entirely (no error). -/
theorem c10_segment_split_truncates (envCredentials : WindowsCredentials)
    (config : ConnectionConfig) :
    (∀ part : String,
      applyPart envCredentials config part =
        applyKeyValue envCredentials config
          (((jsSplitChar part '=').map jsTrim).headD "")
          ((((jsSplitChar part '=').map jsTrim).get? 1).getD "")) ∧
    (∀ key value : String, (jsIsEmpty key || jsIsEmpty value) = true →
      applyKeyValue envCredentials config key value = config) ∧
    (parseConnectionString "Server=S;Pwd=a=b" {}).authentication.options.password =
      some "a" ∧
    parseConnectionString " = v;Server=X;junk;;" {} =
      { initialConfig with server := "X" } := by
  refine ⟨fun part => rfl, fun key value h => ?_, by decide, by decide⟩
  unfold applyKeyValue
  rw [if_pos h]

/-- Witness for C10: the skip rule applied at concrete empty-key and
empty-value segments, and the general first-two-pieces rule at a concrete
three-piece segment. -/
theorem c10_segment_split_truncates_witness :
    applyKeyValue {} initialConfig "" "v" = initialConfig ∧
    applyKeyValue {} initialConfig "Server" "" = initialConfig ∧
    applyPart {} initialConfig "Pwd=a=b" =
      applyKeyValue {} initialConfig
        (((jsSplitChar "Pwd=a=b" '=').map jsTrim).headD "")
        ((((jsSplitChar "Pwd=a=b" '=').map jsTrim).get? 1).getD "") :=
  ⟨(c10_segment_split_truncates {} initialConfig).2.1 "" "v" (by decide),
   (c10_segment_split_truncates {} initialConfig).2.1 "Server" "" (by decide),
   (c10_segment_split_truncates {} initialConfig).1 "Pwd=a=b"⟩

theorem applyPart_integratedSecurity {part : String} (envCredentials : WindowsCredentials)
    (config : ConnectionConfig) (h : isIntegratedSecurityPair part = true) :
    applyPart envCredentials config part =
      { config with authentication :=
          { type := "ntlm",
            options := ntlmOptionsUpdate envCredentials config.authentication.options } } := by
  unfold isIntegratedSecurityPair at h
  dsimp only at h
  simp only [Bool.and_eq_true, Bool.or_eq_true, Bool.not_eq_true', beq_iff_eq] at h
  obtain ⟨⟨⟨hk, hv⟩, hkey⟩, hval⟩ := h
  unfold applyPart applyKeyValue
  dsimp only
  rw [hk, hv, hkey]
  rcases hval with hval | hval <;> rw [hval] <;> simp

theorem applyPart_preserves_ntlm (envCredentials : WindowsCredentials)
    (config : ConnectionConfig) (part : String)
    (h : config.authentication.type = "ntlm") :
    (applyPart envCredentials config part).authentication.type = "ntlm" := by
  unfold applyPart applyKeyValue
  dsimp only
  repeat' split
  all_goals simp [h]

theorem foldl_applyPart_ntlm (envCredentials : WindowsCredentials) :
    ∀ (parts : List String) (config : ConnectionConfig),
    (config.authentication.type = "ntlm" ∨
      ∃ p ∈ parts, isIntegratedSecurityPair p = true) →
    (parts.foldl (applyPart envCredentials) config).authentication.type = "ntlm" := by
  intro parts
  induction parts with
  | nil =>
    intro config h
    rcases h with h | ⟨p, hp, _⟩
    · exact h
    · cases hp
  | cons q qs ih =>
    intro config h
    rw [List.foldl_cons]
    apply ih
    rcases h with h | ⟨p, hp, hip⟩
    · exact Or.inl (applyPart_preserves_ntlm envCredentials config q h)
    · rcases List.mem_cons.mp hp with rfl | hmem
      · exact Or.inl (by rw [applyPart_integratedSecurity envCredentials config hip])
      · exact Or.inr ⟨p, hmem, hip⟩

theorem ntlmOptionsUpdate_userName {envCredentials : WindowsCredentials}
    (opts : AuthOptions) (hu : jsTruthy envCredentials.username = true) :
    (ntlmOptionsUpdate envCredentials opts).userName = envCredentials.username := by
  unfold ntlmOptionsUpdate
  rw [hu]
  dsimp only
  cases hp : jsTruthy envCredentials.password <;>
    cases hd : jsTruthy envCredentials.domain <;> simp

theorem ntlmOptionsUpdate_password {envCredentials : WindowsCredentials}
    (opts : AuthOptions) (hp : jsTruthy envCredentials.password = true) :
    (ntlmOptionsUpdate envCredentials opts).password = envCredentials.password := by
  unfold ntlmOptionsUpdate
  rw [hp]
  dsimp only
  cases hu : jsTruthy envCredentials.username <;>
    cases hd : jsTruthy envCredentials.domain <;> simp [hu]

theorem ntlmOptionsUpdate_domain {envCredentials : WindowsCredentials}
    (opts : AuthOptions) (hd : jsTruthy envCredentials.domain = true) :
    (ntlmOptionsUpdate envCredentials opts).domain = envCredentials.domain := by
  unfold ntlmOptionsUpdate
  rw [hd]
  dsimp only
  cases hu : jsTruthy envCredentials.username <;>
    cases hp : jsTruthy envCredentials.password <;> simp

theorem ntlmOptionsUpdate_delete {envCredentials : WindowsCredentials}
    (opts : AuthOptions) (hu : jsTruthy envCredentials.username = false)
    (hp : jsTruthy envCredentials.password = false) :
    (ntlmOptionsUpdate envCredentials opts).userName = none ∧
    (ntlmOptionsUpdate envCredentials opts).password = none := by
  unfold ntlmOptionsUpdate
  rw [hu, hp]
  dsimp only
  cases hd : jsTruthy envCredentials.domain <;> simp

/-- Claim C2 counterexample.  First: with process credentials
`{username:"u", password:"p"}` (both present), the resulting config for a
string containing the Integrated Security pair does NOT necessarily carry
the injected username — a later `User Id` segment overwrites it.  Second:
a present-but-empty username (reachable via a JSON credentials blob) is not
injected at all: the config ends with no userName field, while the claim
says every present credential is injected. -/
theorem c2_ntlm_claim_counterexample :
    ((parseConnectionString "Integrated Security=SSPI;User Id=svc"
        { username := some "u", password := some "p" }).authentication.options.userName ≠
      some "u") ∧
    ((parseConnectionString "Integrated Security=SSPI;User Id=svc"
        { username := some "u", password := some "p" }).authentication.options.userName =
      some "svc") ∧
    ((parseConnectionString "Data Source=S;Initial Catalog=D;Integrated Security=SSPI;"
        { username := some "" }).authentication.options.userName = none) := by
  exact ⟨by decide, by decide, by decide⟩

/-- Claim C2 (amended): a raw connection string containing an
`integrated security` pair with value `true`/`sspi` (case-insensitive)
always yields authentication type `ntlm`; at the point the pair is
processed, whichever process-wide Windows credentials are present AND
non-empty are injected, and when neither a non-empty username nor a
non-empty password is present both fields are removed entirely (absent, not
empty strings) — later segments may overwrite these fields.  The two
spec vectors hold as stated. -/
theorem c2_integrated_security_ntlm :
    (∀ (connectionString : String) (envCredentials : WindowsCredentials),
      (∃ p ∈ connStringParts connectionString, isIntegratedSecurityPair p = true) →
      (parseConnectionString connectionString envCredentials).authentication.type =
        "ntlm") ∧
    (∀ (envCredentials : WindowsCredentials) (config : ConnectionConfig) (part : String),
      isIntegratedSecurityPair part = true →
      (jsTruthy envCredentials.username = true →
        (applyPart envCredentials config part).authentication.options.userName =
          envCredentials.username) ∧
      (jsTruthy envCredentials.password = true →
        (applyPart envCredentials config part).authentication.options.password =
          envCredentials.password) ∧
      (jsTruthy envCredentials.domain = true →
        (applyPart envCredentials config part).authentication.options.domain =
          envCredentials.domain) ∧
      (jsTruthy envCredentials.username = false →
        jsTruthy envCredentials.password = false →
        (applyPart envCredentials config part).authentication.options.userName = none ∧
        (applyPart envCredentials config part).authentication.options.password = none)) ∧
    (parseConnectionString "Data Source=S;Initial Catalog=D;Integrated Security=SSPI;" {} =
      { server := "S"
        options := { database := some "D", encrypt := true,
                     trustServerCertificate := true, enableArithAbort := true }
        authentication := { type := "ntlm", options := {} } }) ∧
    (parseConnectionString "Data Source=S;Initial Catalog=D;Integrated Security=SSPI;"
        { username := some "u", password := some "p" } =
      { server := "S"
        options := { database := some "D", encrypt := true,
                     trustServerCertificate := true, enableArithAbort := true }
        authentication := { type := "ntlm",
                            options := { userName := some "u", password := some "p" } } }) := by
  refine ⟨fun cs cr h => foldl_applyPart_ntlm cr _ _ (Or.inr h),
    fun cr config part hp => ?_, by decide, by decide⟩
  rw [applyPart_integratedSecurity cr config hp]
  exact ⟨fun hu => ntlmOptionsUpdate_userName _ hu,
    fun hpw => ntlmOptionsUpdate_password _ hpw,
    fun hd => ntlmOptionsUpdate_domain _ hd,
    fun hu hpw => ntlmOptionsUpdate_delete _ hu hpw⟩

/-- Witness for C2 (amended): the universal ntlm conjunct and the injection
and deletion conjuncts applied at concrete inputs. -/
theorem c2_integrated_security_ntlm_witness :
    ((parseConnectionString "Server=S;Integrated Security=true"
        { domain := some "DOM" }).authentication.type = "ntlm") ∧
    ((applyPart { username := some "u", password := some "p", domain := some "DOM" }
        initialConfig "Integrated Security=SSPI").authentication.options.userName =
      some "u") ∧
    ((applyPart { domain := some "DOM" }
        initialConfig "Integrated Security=SSPI").authentication.options.userName =
      none) := by
  refine ⟨c2_integrated_security_ntlm.1 "Server=S;Integrated Security=true"
      { domain := some "DOM" } ⟨"Integrated Security=true", by decide, by decide⟩,
    ((c2_integrated_security_ntlm.2.1 _ initialConfig "Integrated Security=SSPI"
        (by decide)).1 (by decide)),
    ((c2_integrated_security_ntlm.2.1 _ initialConfig "Integrated Security=SSPI"
        (by decide)).2.2.2 (by decide) (by decide)).1⟩

theorem lookup_objSet_self {α : Type} (m : List (String × α)) (k : String) (v : α) :
    (objSet m k v).lookup k = some v := by
  induction m with
  | nil => simp [objSet, List.lookup_cons]
  | cons p rest ih =>
    obtain ⟨pk, pv⟩ := p
    by_cases h : pk = k
    · subst h
      simp [objSet, List.lookup_cons]
    · have hb : (k == pk) = false := beq_eq_false_iff_ne.mpr (Ne.symm h)
      simp [objSet, h, List.lookup_cons, hb, ih]

theorem lookup_objSet_ne {α : Type} (m : List (String × α)) {k k' : String} (v : α)
    (h : k' ≠ k) : (objSet m k v).lookup k' = m.lookup k' := by
  have hb : (k' == k) = false := beq_eq_false_iff_ne.mpr h
  induction m with
  | nil => simp [objSet, List.lookup_cons, hb]
  | cons p rest ih =>
    obtain ⟨pk, pv⟩ := p
    by_cases hp : pk = k
    · subst hp
      simp [objSet, List.lookup_cons, hb]
    · simp [objSet, hp, List.lookup_cons, ih]

theorem lookup_objDelete_self {α : Type} (m : List (String × α)) (k : String) :
    (objDelete m k).lookup k = none := by
  induction m with
  | nil => simp [objDelete]
  | cons p rest ih =>
    obtain ⟨pk, pv⟩ := p
    by_cases hp : pk = k
    · rw [show objDelete ((pk, pv) :: rest) k = objDelete rest k by
        simp [objDelete, hp]]
      exact ih
    · have hb : (k == pk) = false := beq_eq_false_iff_ne.mpr (Ne.symm hp)
      rw [show objDelete ((pk, pv) :: rest) k = (pk, pv) :: objDelete rest k by
        simp [objDelete, hp]]
      simp [List.lookup_cons, hb, ih]

theorem foldl_objSet_lookup_not_mem {α : Type} :
    ∀ (l acc : List (String × α)) (a : String), a ∉ l.map Prod.fst →
    (l.foldl (fun m kv => objSet m kv.1 kv.2) acc).lookup a = acc.lookup a := by
  intro l
  induction l with
  | nil => intro acc a _; rfl
  | cons p rest ih =>
    intro acc a ha
    rw [List.map_cons] at ha
    have h1 : a ≠ p.1 := fun h => ha (h ▸ List.mem_cons_self _ _)
    have h2 : a ∉ rest.map Prod.fst := fun h => ha (List.mem_cons_of_mem _ h)
    rw [List.foldl_cons, ih _ a h2, lookup_objSet_ne _ _ h1]

theorem foldl_objSet_lookup_mem {α : Type} :
    ∀ (l : List (String × α)) (acc : List (String × α)) (a : String) (v : α),
    (l.map Prod.fst).Nodup → (a, v) ∈ l →
    (l.foldl (fun m kv => objSet m kv.1 kv.2) acc).lookup a = some v := by
  intro l
  induction l with
  | nil => intro _ _ _ _ h; cases h
  | cons p rest ih =>
    intro acc a v hnd hmem
    rw [List.map_cons, List.nodup_cons] at hnd
    rcases List.mem_cons.mp hmem with rfl | hmem
    · rw [List.foldl_cons, foldl_objSet_lookup_not_mem _ _ _ hnd.1,
        lookup_objSet_self]
    · exact List.foldl_cons _ _ ▸ ih _ a v hnd.2 hmem

theorem runQueryEvents_rows {α : Type} :
    ∀ (rows : List (List (ColumnData α))) (acc : List (List (String × α)))
      (rest : List (QueryEvent α)),
    runQueryEvents acc (rows.map QueryEvent.row ++ rest) =
      runQueryEvents (acc ++ rows.map rowToRecord) rest := by
  intro rows
  induction rows with
  | nil => intro acc rest; simp
  | cons r rs ih =>
    intro acc rest
    rw [List.map_cons, List.cons_append]
    show runQueryEvents (acc ++ [rowToRecord r]) (rs.map QueryEvent.row ++ rest) = _
    rw [ih]
    simp

theorem rowToRecord_lookup {α : Type} (columns : List (ColumnData α))
    (hnd : (columns.map ColumnData.colName).Nodup) :
    ∀ cd ∈ columns, (rowToRecord columns).lookup cd.colName = some cd.value := by
  intro cd hcd
  have heq : rowToRecord columns =
      (columns.map (fun c => (c.colName, c.value))).foldl
        (fun m kv => objSet m kv.1 kv.2) [] := by
    rw [List.foldl_map]
    rfl
  rw [heq]
  apply foldl_objSet_lookup_mem
  · rw [List.map_map]
    exact hnd
  · exact List.mem_map_of_mem _ hcd

/-- Claim C5: for every sequence of row events the driver delivers for one
command, `executeQuery` resolves with one record per row event in emission
order once the driver signals successful completion; each record maps each
column's reported name to that column's emitted value (for the driver's
reported column names, which are pairwise distinct in a well-formed result
set); without a completion signal the promise stays pending; and a
completion error rejects with the driver's error. -/
theorem c5_execute_query_rows {α : Type} :
    (∀ rows : List (List (ColumnData α)),
      executeQuery (rows.map QueryEvent.row ++ [QueryEvent.completion none]) =
        some (.ok (rows.map rowToRecord))) ∧
    (∀ (rows : List (List (ColumnData α))) (e : String),
      executeQuery (rows.map QueryEvent.row ++ [QueryEvent.completion (some e)]) =
        some (.error e)) ∧
    (∀ rows : List (List (ColumnData α)),
      executeQuery (rows.map QueryEvent.row) = none) ∧
    (∀ columns : List (ColumnData α), (columns.map ColumnData.colName).Nodup →
      ∀ cd ∈ columns, (rowToRecord columns).lookup cd.colName = some cd.value) := by
  refine ⟨fun rows => ?_, fun rows e => ?_, fun rows => ?_,
    fun columns hnd => rowToRecord_lookup columns hnd⟩
  · rw [executeQuery, runQueryEvents_rows]
    simp [runQueryEvents]
  · rw [executeQuery, runQueryEvents_rows]
    simp [runQueryEvents]
  · rw [executeQuery, ← List.append_nil (rows.map QueryEvent.row), runQueryEvents_rows]
    rfl

/-- Witness for C5 at a concrete two-row, two-column event script. -/
theorem c5_execute_query_rows_witness :
    executeQuery
        [QueryEvent.row [⟨"id", 1⟩, ⟨"total", 7⟩], QueryEvent.row [⟨"id", 2⟩, ⟨"total", 9⟩],
         QueryEvent.completion none] =
      some (.ok [[("id", 1), ("total", 7)], [("id", 2), ("total", 9)]]) ∧
    (rowToRecord [⟨"id", 1⟩, ⟨"total", 7⟩]).lookup "total" = some 7 := by
  constructor
  · have h := c5_execute_query_rows.1
      [[(⟨"id", 1⟩ : ColumnData Nat), ⟨"total", 7⟩], [⟨"id", 2⟩, ⟨"total", 9⟩]]
    rw [show ([[(⟨"id", 1⟩ : ColumnData Nat), ⟨"total", 7⟩],
        [⟨"id", 2⟩, ⟨"total", 9⟩]].map QueryEvent.row ++ [QueryEvent.completion none]) =
        [QueryEvent.row [⟨"id", 1⟩, ⟨"total", 7⟩], QueryEvent.row [⟨"id", 2⟩, ⟨"total", 9⟩],
         QueryEvent.completion none] from rfl] at h
    rw [h]
    decide
  · exact c5_execute_query_rows.2.2.2 [⟨"id", 1⟩, ⟨"total", 7⟩] (by decide)
      ⟨"total", 7⟩ (by decide)

theorem getConnection_cached_after_ok (cfg : ConnMgrConfig)
    (cache : List (String × Session)) (p n : Option String) {key : String}
    {s : Session} (out : ConnectOutcome)
    (hres : getConnectionString cfg p n = .ok key)
    (hok : (getConnection cfg cache p n out).result = .ok s) :
    (getConnection cfg cache p n out).cache.lookup key = some s := by
  unfold getConnection at hok ⊢
  rw [hres] at hok ⊢
  dsimp only at hok ⊢
  cases hc : cache.lookup key with
  | some conn =>
    rw [hc] at hok
    dsimp only at hok ⊢
    by_cases hst : conn.stateName = "LoggedIn"
    · rw [if_pos hst] at hok ⊢
      obtain rfl : conn = s := by simpa using hok
      exact hc
    · rw [if_neg hst] at hok ⊢
      cases out with
      | success s' =>
        obtain rfl : s' = s := by simpa [connectFresh] using hok
        exact lookup_objSet_self cache key _
      | failure e => exact absurd hok (by simp [connectFresh])
  | none =>
    rw [hc] at hok
    dsimp only at hok ⊢
    cases out with
    | success s' =>
      obtain rfl : s' = s := by simpa [connectFresh] using hok
      exact lookup_objSet_self cache key _
    | failure e => exact absurd hok (by simp [connectFresh])

/-- Claim C3: two sequential `getConnection` calls resolving to the same raw
connection-string key, where the first call succeeds and its cached session
still reports `LoggedIn` when the second runs, return the same cached
connection object for the second call with no new session opened (and when
the first call was a cache miss it performed the single handshake, for
exactly one in total). -/
theorem c3_cached_acquisition_idempotent (cfg : ConnMgrConfig)
    (cache : List (String × Session)) (p₁ n₁ p₂ n₂ : Option String)
    (key : String) (s : Session) (out₁ out₂ : ConnectOutcome)
    (h₁ : getConnectionString cfg p₁ n₁ = .ok key)
    (h₂ : getConnectionString cfg p₂ n₂ = .ok key)
    (hok : (getConnection cfg cache p₁ n₁ out₁).result = .ok s)
    (hlive : s.stateName = "LoggedIn") :
    getConnection cfg (getConnection cfg cache p₁ n₁ out₁).cache p₂ n₂ out₂ =
      ⟨.ok s, (getConnection cfg cache p₁ n₁ out₁).cache, 0⟩ ∧
    (cache.lookup key = none →
      (getConnection cfg cache p₁ n₁ out₁).handshakes = 1) := by
  have hcached := getConnection_cached_after_ok cfg cache p₁ n₁ out₁ h₁ hok
  constructor
  · generalize hC : (getConnection cfg cache p₁ n₁ out₁).cache = C at hcached ⊢
    unfold getConnection
    rw [h₂]
    dsimp only
    rw [hcached]
    dsimp only
    rw [if_pos hlive]
  · intro hnone
    unfold getConnection
    rw [h₁]
    dsimp only
    rw [hnone]
    cases out₁ <;> rfl

/-- Witness for C3: a concrete cold acquisition (one handshake) followed by
a cache hit returning the same session, no matter what the driver would do
on a second handshake. -/
theorem c3_cached_acquisition_idempotent_witness :
    getConnection { defaultConnectionString := some "CS" }
        (getConnection { defaultConnectionString := some "CS" } [] none none
          (.success ⟨1, "LoggedIn"⟩)).cache
        none none (.failure "down") =
      ⟨.ok ⟨1, "LoggedIn"⟩,
        (getConnection { defaultConnectionString := some "CS" } [] none none
          (.success ⟨1, "LoggedIn"⟩)).cache, 0⟩ ∧
    (getConnection { defaultConnectionString := some "CS" } [] none none
      (.success ⟨1, "LoggedIn"⟩)).handshakes = 1 := by
  have h := c3_cached_acquisition_idempotent { defaultConnectionString := some "CS" }
    [] none none none none "CS" ⟨1, "LoggedIn"⟩
    (.success ⟨1, "LoggedIn"⟩) (.failure "down")
    (by decide) (by decide) (by decide) (by decide)
  exact ⟨h.1, h.2 (by decide)⟩

/-- Claim C4: a login failure rejects with the driver's error and leaves the
cache unchanged (nothing is stored under the key by the failed attempt);
and after a cached live session emits an error event its entry is evicted,
so the next acquisition for the same key performs a fresh handshake. -/
theorem c4_login_failure_and_eviction (cfg : ConnMgrConfig)
    (cache : List (String × Session)) (p n : Option String) (key : String)
    (e : String) (s : Session)
    (hres : getConnectionString cfg p n = .ok key) :
    ((∀ c, cache.lookup key = some c → c.stateName ≠ "LoggedIn") →
      getConnection cfg cache p n (.failure e) = ⟨.error e, cache, 1⟩) ∧
    ((onSessionError cache key).lookup key = none ∧
      getConnection cfg (onSessionError cache key) p n (.success s) =
        ⟨.ok s, objSet (onSessionError cache key) key s, 1⟩) := by
  have hdel : (onSessionError cache key).lookup key = none :=
    lookup_objDelete_self cache key
  refine ⟨fun hstale => ?_, hdel, ?_⟩
  · unfold getConnection
    rw [hres]
    dsimp only
    cases hc : cache.lookup key with
    | some conn =>
      dsimp only
      rw [if_neg (hstale conn hc)]
      rfl
    | none => rfl
  · unfold getConnection
    rw [hres]
    dsimp only
    rw [hdel]
    rfl

/-- Witness for C4: login failure against a cache holding a stale session
leaves that cache intact, and eviction after an error event empties the key
so the next acquisition performs its single fresh handshake. -/
theorem c4_login_failure_and_eviction_witness :
    (getConnection { defaultConnectionString := some "CS" } [("CS", ⟨1, "Final"⟩)]
        none none (.failure "login failed") =
      ⟨.error "login failed", [("CS", ⟨1, "Final"⟩)], 1⟩) ∧
    (onSessionError [("CS", ⟨1, "LoggedIn"⟩)] "CS").lookup "CS" = none ∧
    getConnection { defaultConnectionString := some "CS" }
        (onSessionError [("CS", ⟨1, "LoggedIn"⟩)] "CS") none none
        (.success ⟨2, "LoggedIn"⟩) =
      ⟨.ok ⟨2, "LoggedIn"⟩,
        objSet (onSessionError [("CS", ⟨1, "LoggedIn"⟩)] "CS") "CS" ⟨2, "LoggedIn"⟩, 1⟩ := by
  have h₁ := c4_login_failure_and_eviction { defaultConnectionString := some "CS" }
    [("CS", ⟨1, "Final"⟩)] none none "CS" "login failed" ⟨2, "LoggedIn"⟩ (by decide)
  have h₂ := c4_login_failure_and_eviction { defaultConnectionString := some "CS" }
    [("CS", ⟨1, "LoggedIn"⟩)] none none "CS" "login failed" ⟨2, "LoggedIn"⟩ (by decide)
  exact ⟨h₁.1 (by decide), h₂.2.1, h₂.2.2⟩

theorem scanConnectionVars_eq_foldl :
    ∀ (env acc : List (String × String)),
    env.foldl
        (fun acc kv =>
          if isConnectionVar kv.1 then objSet acc (connectionAlias kv.1) kv.2 else acc)
        acc =
      ((env.filter (fun kv => isConnectionVar kv.1)).map
          (fun kv => (connectionAlias kv.1, kv.2))).foldl
        (fun m kv => objSet m kv.1 kv.2) acc := by
  intro env
  induction env with
  | nil => intro acc; rfl
  | cons kv rest ih =>
    intro acc
    by_cases h : isConnectionVar kv.1 <;>
      simp [List.foldl_cons, List.filter_cons, h, ih]

/-- Claim C7: every environment variable whose key starts with
`CONNECTION_` contributes a named connection whose alias is the key with the
prefix stripped and the remainder lowercased (underscores preserved) and
whose value is the raw connection string (stated for the non-degenerate case
of pairwise-distinct derived aliases); and whenever the scan produces at
least one alias it wins outright — the result equals the scan for EVERY blob
parser and blob contents, so neither blob source is consulted. -/
theorem c7_connection_scan_wins (env : List (String × String)) :
    (∀ parseBlob : String → Except String (List (String × String)),
      scanConnectionVars env ≠ [] →
      loadNamedConnections parseBlob env = scanConnectionVars env) ∧
    (∀ (k v : String), (scanAliases env).Nodup → (k, v) ∈ env →
      isConnectionVar k = true →
      (scanConnectionVars env).lookup (connectionAlias k) = some v) := by
  constructor
  · intro parseBlob hne
    unfold loadNamedConnections
    rw [if_pos (by simpa [List.length_pos] using hne)]
  · intro k v hnd hmem hk
    unfold scanConnectionVars
    rw [scanConnectionVars_eq_foldl]
    apply foldl_objSet_lookup_mem
    · simpa [scanAliases, List.map_map, Function.comp] using hnd
    · exact List.mem_map_of_mem _ (List.mem_filter.mpr ⟨hmem, hk⟩)

/-- Witness for C7 at the spec's own example environment:
`CONNECTION_CRM_APP=X` and `CONNECTION_HR_SYSTEM=Y` yield aliases
`crm_app` and `hr_system`, and the scan wins over a would-be blob source. -/
theorem c7_connection_scan_wins_witness :
    loadNamedConnections demoParse
        [("CONNECTION_CRM_APP", "X"), ("CONNECTION_HR_SYSTEM", "Y"), ("connections", "good")] =
      scanConnectionVars
        [("CONNECTION_CRM_APP", "X"), ("CONNECTION_HR_SYSTEM", "Y"), ("connections", "good")] ∧
    (scanConnectionVars
        [("CONNECTION_CRM_APP", "X"), ("CONNECTION_HR_SYSTEM", "Y"), ("connections", "good")]).lookup
        "crm_app" = some "X" ∧
    (scanConnectionVars
        [("CONNECTION_CRM_APP", "X"), ("CONNECTION_HR_SYSTEM", "Y"), ("connections", "good")]).lookup
        "hr_system" = some "Y" := by
  refine ⟨(c7_connection_scan_wins _).1 demoParse (by decide), ?_, ?_⟩
  · have h := (c7_connection_scan_wins
      [("CONNECTION_CRM_APP", "X"), ("CONNECTION_HR_SYSTEM", "Y"), ("connections", "good")]).2
      "CONNECTION_CRM_APP" "X" (by decide) (by decide) (by decide)
    simpa using h
  · have h := (c7_connection_scan_wins
      [("CONNECTION_CRM_APP", "X"), ("CONNECTION_HR_SYSTEM", "Y"), ("connections", "good")]).2
      "CONNECTION_HR_SYSTEM" "Y" (by decide) (by decide) (by decide)
    simpa using h

/-- Claim C8 counterexample: with no `CONNECTION_*` variables, a
`connections` blob that fails to parse, and a valid legacy
`MSSQL_CONNECTIONS` blob parsing to the map `db -> X`, the named-connections
map ends up EMPTY — the function-level `try/catch` aborts the source chain,
so the legacy blob is never consulted and does not determine the map as the
claim says. -/
theorem c8_parse_failure_counterexample :
    demoParse "bad" = .error "unexpected token" ∧
    demoParse "good" = .ok [("db", "X")] ∧
    loadNamedConnections demoParse [("connections", "bad"), ("MSSQL_CONNECTIONS", "good")] =
      [] ∧
    loadNamedConnections demoParse [("connections", "bad"), ("MSSQL_CONNECTIONS", "good")] ≠
      [("db", "X")] := by
  exact ⟨by decide, by decide, by decide, by decide⟩

/-- Claim C8 (amended): a parse failure of a structured named-connections
blob is non-fatal — the named-connections map is simply left empty and
startup continues — but it aborts the remaining sources rather than falling
through: when the `CONNECTION_*` scan is empty and the `connections` blob
fails to parse, the map stays empty no matter what `MSSQL_CONNECTIONS`
holds; the legacy blob determines the map only when the `connections`
variable itself is absent or empty, and a failing legacy blob likewise
yields the empty map. -/
theorem c8_parse_failure_nonfatal :
    (∀ (env : List (String × String))
      (parseBlob : String → Except String (List (String × String))) (e : String),
      scanConnectionVars env = [] →
      jsTruthy (env.lookup "connections") = true →
      parseBlob ((env.lookup "connections").getD "") = .error e →
      loadNamedConnections parseBlob env = []) ∧
    (∀ (env : List (String × String))
      (parseBlob : String → Except String (List (String × String)))
      (m : List (String × String)),
      scanConnectionVars env = [] →
      jsTruthy (env.lookup "connections") = false →
      jsTruthy (env.lookup "MSSQL_CONNECTIONS") = true →
      parseBlob ((env.lookup "MSSQL_CONNECTIONS").getD "") = .ok m →
      loadNamedConnections parseBlob env = m) ∧
    (∀ (env : List (String × String))
      (parseBlob : String → Except String (List (String × String))) (e : String),
      scanConnectionVars env = [] →
      jsTruthy (env.lookup "connections") = false →
      jsTruthy (env.lookup "MSSQL_CONNECTIONS") = true →
      parseBlob ((env.lookup "MSSQL_CONNECTIONS").getD "") = .error e →
      loadNamedConnections parseBlob env = []) := by
  refine ⟨fun env pb e hscan hc hp => ?_, fun env pb m hscan hc hm hp => ?_,
    fun env pb e hscan hc hm hp => ?_⟩ <;>
    unfold loadNamedConnections <;>
    rw [hscan] <;>
    simp only [List.length_nil, gt_iff_lt, Nat.lt_irrefl, if_false, *] <;>
    rfl

/-- Witness for C8 (amended): concrete environments for the failing
`connections` blob, the succeeding legacy blob, and the failing legacy
blob. -/
theorem c8_parse_failure_nonfatal_witness :
    loadNamedConnections demoParse [("connections", "bad"), ("MSSQL_CONNECTIONS", "good")] =
      [] ∧
    loadNamedConnections demoParse [("MSSQL_CONNECTIONS", "good")] = [("db", "X")] ∧
    loadNamedConnections demoParse [("MSSQL_CONNECTIONS", "bad")] = [] := by
  exact ⟨c8_parse_failure_nonfatal.1 [("connections", "bad"), ("MSSQL_CONNECTIONS", "good")]
      demoParse "unexpected token" (by decide) (by decide) (by decide),
    c8_parse_failure_nonfatal.2.1 [("MSSQL_CONNECTIONS", "good")] demoParse [("db", "X")]
      (by decide) (by decide) (by decide) (by decide),
    c8_parse_failure_nonfatal.2.2 [("MSSQL_CONNECTIONS", "bad")] demoParse "unexpected token"
      (by decide) (by decide) (by decide) (by decide)⟩
